import Mathlib

/-!
Verification development for the twbx-to-pbip-migration core: a shallow
embedding of the semantic mapping engine (canonical_transformer.py) and the
expression translation engine (calculation_translator.py), together with
theorems settling the frozen claims about them.

Modelling conventions:
- Python strings are Lean String values; the regex-driven rewriting of the
  source is embedded as explicit left-to-right scanners over List Char that
  reproduce the semantics of the concrete patterns the source uses
  (word boundary, \s*, single-character-class groups such as [^)]+).
  As in re.sub, replacement text is emitted to the output and scanning
  continues in the original input after the match.
- Character classes (\w, \s, str.isalnum, str.isdigit, str.upper/lower) are
  modelled on the ASCII range, which covers every constant the source uses.
- Python int() of the float products in scale_zone_position is modelled as
  exact rational scaling truncated toward zero (Int.tdiv); every property
  proved about it is insensitive to the rounding of the scaled values.
- The scanners that consume more than one character per step take an explicit
  fuel argument so that they are structurally recursive; fuel is always
  instantiated with the length of the scanned list, which an easy invariant
  (each step consumes at least one character of the input) shows is enough,
  so the fuel-exhausted branch is never reached.
- The quote, left-brace and right-brace characters are written Char.ofNat
  39 / 123 / 125 throughout.
-/

set_option maxRecDepth 100000

namespace Migration

/-- Confidence level for translations (canonical_schema.py, class ConfidenceLevel).
The Enum values are the lowercase label strings. -/
inductive ConfidenceLevel where
  | HIGH
  | MEDIUM
  | LOW
  | UNSUPPORTED
deriving DecidableEq

/-- The Python Enum value (label string) of a ConfidenceLevel. -/
def ConfidenceLevel.value : ConfidenceLevel → String
  | .HIGH => "high"
  | .MEDIUM => "medium"
  | .LOW => "low"
  | .UNSUPPORTED => "unsupported"

/-- Aggregation types (canonical_schema.py, class AggregationType). -/
inductive AggregationType where
  | SUM
  | COUNT
  | COUNTD
  | AVG
  | MIN
  | MAX
  | MEDIAN
  | STDEV
  | VAR
  | NONE
deriving DecidableEq

/-- Platform-agnostic data types (canonical_schema.py, class DataType). -/
inductive DataType where
  | STRING
  | INTEGER
  | DECIMAL
  | DOUBLE
  | DATE
  | DATETIME
  | BOOLEAN
  | BINARY
deriving DecidableEq

/-- Platform-agnostic visual types (canonical_schema.py, class VisualType). -/
inductive VisualType where
  | BAR_CHART
  | CLUSTERED_BAR
  | STACKED_BAR
  | LINE_CHART
  | AREA_CHART
  | PIE_CHART
  | DONUT_CHART
  | TABLE
  | MATRIX
  | CARD
  | SLICER
  | SCATTER
  | MAP
  | TREEMAP
  | FUNNEL
  | GAUGE
  | KPI
  | TEXT
  | IMAGE
  | UNKNOWN
deriving DecidableEq

/-- Tableau worksheet visual types (tableau_schema.py, class TableauVisualType). -/
inductive TableauVisualType where
  | BAR
  | LINE
  | AREA
  | PIE
  | SCATTER
  | TEXT_TABLE
  | CROSSTAB
  | MAP
  | TREEMAP
  | HEATMAP
  | HISTOGRAM
  | GANTT
  | BULLET
  | PACKED_BUBBLE
  | DUAL_AXIS
  | COMBINED_AXIS
  | UNKNOWN
deriving DecidableEq

/-- Tableau field data types (tableau_schema.py, class TableauDataType). -/
inductive TableauDataType where
  | STRING
  | INTEGER
  | REAL
  | DATE
  | DATETIME
  | BOOLEAN
  | UNKNOWN
deriving DecidableEq

/-- Tableau field roles (tableau_schema.py, class TableauRole). -/
inductive TableauRole where
  | DIMENSION
  | MEASURE
deriving DecidableEq

/-- Types of Tableau calculations (tableau_schema.py, class CalculationType). -/
inductive CalculationType where
  | BASIC
  | TABLE_CALC
  | LOD
  | PARAMETER
deriving DecidableEq

/-- The single-quote character, written by code point to keep apostrophes out
of the source text. -/
def squote : Char := Char.ofNat 39

/-- The left-brace character. -/
def lbrace : Char := Char.ofNat 123

/-- The right-brace character. -/
def rbrace : Char := Char.ofNat 125

/-- A one-character string holding the single quote. -/
def quoteStr : String := String.mk [squote]

/-- Python regex \s on the ASCII range: space, tab, newline, carriage return,
vertical tab, form feed. -/
def pyIsSpace (c : Char) : Bool :=
  c = ' ' || c = '\t' || c = '\n' || c = '\r' || c = Char.ofNat 11 || c = Char.ofNat 12

/-- Python str.isalnum restricted to the ASCII range. -/
def pyIsAlnum (c : Char) : Bool :=
  c.isAlpha || c.isDigit

/-- Python regex \w on the ASCII range: alphanumeric or underscore. -/
def isWordChar (c : Char) : Bool :=
  pyIsAlnum c || c = '_'

/-- Uppercase a character list (Python str.upper on the ASCII range). -/
def pyUpperL (l : List Char) : List Char :=
  l.map Char.toUpper

/-- Lowercase a character list (Python str.lower on the ASCII range). -/
def pyLowerL (l : List Char) : List Char :=
  l.map Char.toLower

/-- Python str.strip on a character list: drop leading and trailing whitespace. -/
def stripList (l : List Char) : List Char :=
  ((l.dropWhile pyIsSpace).reverse.dropWhile pyIsSpace).reverse

/-- Python str.strip on a string. -/
def pyStrip (s : String) : String :=
  String.mk (stripList s.toList)

/-- Python lexicographic string comparison, on character lists: this is the
order the source applies to ConfidenceLevel.value labels. -/
def charListLt : List Char → List Char → Bool
  | [], [] => false
  | [], _ :: _ => true
  | _ :: _, [] => false
  | a :: as, b :: bs =>
    if a < b then true
    else if b < a then false
    else charListLt as bs

/-- Case-insensitive prefix matcher: if the pattern characters match the
front of the input (up to ASCII case), return the remaining input. -/
def dropPrefixCI : List Char → List Char → Option (List Char)
  | [], l => some l
  | _ :: _, [] => none
  | p :: ps, c :: cs =>
    if p.toUpper = c.toUpper then dropPrefixCI ps cs else none

/-- A regex word boundary holds before a word character when the previous
character (none at the start of the string) is not a word character. -/
def boundaryOK : Option Char → Bool
  | none => true
  | some c => !isWordChar c

/-- Matcher for the tail of the pattern NAME\s*\( at the current position:
the name (case-insensitively), optional whitespace, then an opening
parenthesis; returns the input after the parenthesis. -/
def callRest (name : List Char) (l : List Char) : Option (List Char) :=
  match dropPrefixCI name l with
  | none => none
  | some r1 =>
    match r1.dropWhile pyIsSpace with
    | [] => none
    | c :: r2 => if c = '(' then some r2 else none

/-- Scanner for re.search of \bNAME\s*\( : tries every position, tracking the
previous character for the word boundary. -/
def hasCallAux (name : List Char) : Option Char → List Char → Bool
  | _, [] => false
  | prev, c :: rest =>
    (boundaryOK prev && (callRest name (c :: rest)).isSome)
      || hasCallAux name (some c) rest

/-- Whether the formula contains a call of the named function in the sense of
the source patterns \bNAME\s*\( (case-insensitive). -/
def hasCall (name : List Char) (l : List Char) : Bool :=
  hasCallAux name none l

/-- Scanner for re.search of \bCASE\b (case-insensitive). -/
def hasWordCASEAux : Option Char → List Char → Bool
  | _, [] => false
  | prev, c :: rest =>
    (boundaryOK prev &&
      (match dropPrefixCI ['C', 'A', 'S', 'E'] (c :: rest) with
       | some [] => true
       | some (d :: _) => !isWordChar d
       | none => false))
      || hasWordCASEAux (some c) rest

/-- Whether the formula contains the word CASE (pattern \bCASE\b, case-insensitive). -/
def hasWordCASE (l : List Char) : Bool :=
  hasWordCASEAux none l

/-- Fueled scanner for re.sub of \bNAME\s*\( with REPL( : on a match the
replacement is emitted and scanning resumes in the original input after the
consumed opening parenthesis. Fuel is instantiated with the input length,
which suffices since every step consumes at least one input character. -/
def subCallFuel (name repl : List Char) : Nat → Option Char → List Char → List Char
  | 0, _, l => l
  | _ + 1, _, [] => []
  | fuel + 1, prev, c :: rest =>
    if boundaryOK prev then
      match callRest name (c :: rest) with
      | some rem => repl ++ '(' :: subCallFuel name repl fuel (some '(') rem
      | none => c :: subCallFuel name repl fuel (some c) rest
    else c :: subCallFuel name repl fuel (some c) rest

/-- re.sub of \bNAME\s*\( with REPL( over a whole character list. -/
def subCall (name repl : List Char) (l : List Char) : List Char :=
  subCallFuel name repl l.length none l

/-- Matcher for the tail of \bAGG\s*\(([^)]+)\) at the current position:
returns the captured group (at least one non-parenthesis character) and the
input after the closing parenthesis. -/
def aggRest (name : List Char) (l : List Char) : Option (List Char × List Char) :=
  match callRest name l with
  | none => none
  | some r2 =>
    let inner := r2.takeWhile (fun d => !(d = ')'))
    match r2.dropWhile (fun d => !(d = ')')) with
    | ')' :: rem => if inner.isEmpty then none else some (inner, rem)
    | _ => none

/-- Fueled scanner for the aggregation rewrite re.sub of \bAGG\s*\(([^)]+)\)
with DAX(inner.strip()). -/
def aggSubFuel (name repl : List Char) : Nat → Option Char → List Char → List Char
  | 0, _, l => l
  | _ + 1, _, [] => []
  | fuel + 1, prev, c :: rest =>
    if boundaryOK prev then
      match aggRest name (c :: rest) with
      | some (inner, rem) =>
        repl ++ '(' :: (stripList inner ++ ')' :: aggSubFuel name repl fuel (some ')') rem)
      | none => c :: aggSubFuel name repl fuel (some c) rest
    else c :: aggSubFuel name repl fuel (some c) rest

/-- Aggregation-pattern re.sub over a whole character list. -/
def aggSub (name repl : List Char) (l : List Char) : List Char :=
  aggSubFuel name repl l.length none l

/-- Matcher for the tail of ZN\s*\(([^)]+)\) (no word boundary in the source
pattern) at the current position. -/
def znRest (l : List Char) : Option (List Char × List Char) :=
  match dropPrefixCI ['Z', 'N'] l with
  | none => none
  | some r1 =>
    match r1.dropWhile pyIsSpace with
    | '(' :: r2 =>
      let inner := r2.takeWhile (fun d => !(d = ')'))
      match r2.dropWhile (fun d => !(d = ')')) with
      | ')' :: rem => if inner.isEmpty then none else some (inner, rem)
      | _ => none
    | _ => none

/-- Fueled scanner for the special-case rewrite of ZN(x) into
IF(ISBLANK(x), 0, x). -/
def znSubFuel : Nat → List Char → List Char
  | 0, l => l
  | _ + 1, [] => []
  | fuel + 1, c :: rest =>
    match znRest (c :: rest) with
    | some (inner, rem) =>
      ("IF(ISBLANK(".toList ++ inner ++ "), 0, ".toList ++ inner ++ ')' :: znSubFuel fuel rem)
    | none => c :: znSubFuel fuel rest

/-- ZN rewrite over a whole character list. -/
def znSub (l : List Char) : List Char :=
  znSubFuel l.length l

/-- Matcher for the tail of IFNULL\s*\(([^,]+),\s*([^)]+)\) at the current
position: captures the two groups and the input after the closing parenthesis. -/
def ifnullRest (l : List Char) : Option (List Char × List Char × List Char) :=
  match dropPrefixCI ['I', 'F', 'N', 'U', 'L', 'L'] l with
  | none => none
  | some r1 =>
    match r1.dropWhile pyIsSpace with
    | '(' :: r2 =>
      let e1 := r2.takeWhile (fun d => !(d = ','))
      match r2.dropWhile (fun d => !(d = ',')) with
      | ',' :: r3 =>
        let r4 := r3.dropWhile pyIsSpace
        let e2 := r4.takeWhile (fun d => !(d = ')'))
        match r4.dropWhile (fun d => !(d = ')')) with
        | ')' :: rem =>
          if e1.isEmpty || e2.isEmpty then none else some (e1, e2, rem)
        | _ => none
      | _ => none
    | _ => none

/-- Fueled scanner for the special-case rewrite of IFNULL(x, y) into
IF(ISBLANK(x), y, x). -/
def ifnullSubFuel : Nat → List Char → List Char
  | 0, l => l
  | _ + 1, [] => []
  | fuel + 1, c :: rest =>
    match ifnullRest (c :: rest) with
    | some (e1, e2, rem) =>
      ("IF(ISBLANK(".toList ++ e1 ++ "), ".toList ++ e2 ++ ", ".toList ++ e1
        ++ ')' :: ifnullSubFuel fuel rem)
    | none => c :: ifnullSubFuel fuel rest

/-- IFNULL rewrite over a whole character list. -/
def ifnullSub (l : List Char) : List Char :=
  ifnullSubFuel l.length l

/-- Fueled scanner for the field-qualification re.sub of (?<!\w)\[([^\]]+)\]
with a quoted table qualifier followed by the bracketed field. -/
def qualifyFuel (table : List Char) : Nat → Option Char → List Char → List Char
  | 0, _, l => l
  | _ + 1, _, [] => []
  | fuel + 1, prev, c :: rest =>
    if c = '[' && boundaryOK prev then
      let field := rest.takeWhile (fun d => !(d = ']'))
      match rest.dropWhile (fun d => !(d = ']')) with
      | ']' :: rem =>
        if field.isEmpty then c :: qualifyFuel table fuel (some c) rest
        else
          squote :: (table ++ squote :: '[' :: (field ++ ']' :: qualifyFuel table fuel (some ']') rem))
      | _ => c :: qualifyFuel table fuel (some c) rest
    else c :: qualifyFuel table fuel (some c) rest

/-- Field qualification over a whole character list. -/
def qualifySub (table : List Char) (l : List Char) : List Char :=
  qualifyFuel table l.length none l

/-- Scanner for re.search of the LOD pattern: a left brace, optional
whitespace, then FIXED, INCLUDE or EXCLUDE (case-insensitively, alternation
tried in that order); yields group(1).upper(). -/
def lodSearch : List Char → Option String
  | [] => none
  | c :: rest =>
    if c = lbrace then
      let r := rest.dropWhile pyIsSpace
      if (dropPrefixCI "FIXED".toList r).isSome then some "FIXED"
      else if (dropPrefixCI "INCLUDE".toList r).isSome then some "INCLUDE"
      else if (dropPrefixCI "EXCLUDE".toList r).isSome then some "EXCLUDE"
      else lodSearch rest
    else lodSearch rest

/-- Aggregation mappings (calculation_translator.py, AGGREGATION_MAP), in
dictionary insertion order: Tableau name, DAX name, aggregation type. -/
def AGGREGATION_MAP : List (String × String × AggregationType) :=
  [("SUM", "SUM", .SUM),
   ("COUNT", "COUNT", .COUNT),
   ("COUNTD", "DISTINCTCOUNT", .COUNTD),
   ("AVG", "AVERAGE", .AVG),
   ("AVERAGE", "AVERAGE", .AVG),
   ("MIN", "MIN", .MIN),
   ("MAX", "MAX", .MAX),
   ("MEDIAN", "MEDIAN", .MEDIAN),
   ("STDEV", "STDEV.S", .STDEV),
   ("VAR", "VAR.S", .VAR),
   ("ATTR", "SELECTEDVALUE", .NONE)]

/-- Basic function mappings (calculation_translator.py, FUNCTION_MAP), in
dictionary insertion order; none marks a function with no DAX equivalent. -/
def FUNCTION_MAP : List (String × Option String) :=
  [("LEN", some "LEN"),
   ("LEFT", some "LEFT"),
   ("RIGHT", some "RIGHT"),
   ("MID", some "MID"),
   ("UPPER", some "UPPER"),
   ("LOWER", some "LOWER"),
   ("TRIM", some "TRIM"),
   ("LTRIM", some "TRIM"),
   ("RTRIM", some "TRIM"),
   ("CONTAINS", some "CONTAINSSTRING"),
   ("REPLACE", some "SUBSTITUTE"),
   ("SPACE", some "REPT"),
   ("SPLIT", none),
   ("TODAY", some "TODAY"),
   ("NOW", some "NOW"),
   ("YEAR", some "YEAR"),
   ("MONTH", some "MONTH"),
   ("DAY", some "DAY"),
   ("DATEADD", some "DATEADD"),
   ("DATEDIFF", some "DATEDIFF"),
   ("DATEPART", none),
   ("DATETRUNC", none),
   ("DATENAME", some "FORMAT"),
   ("ABS", some "ABS"),
   ("ROUND", some "ROUND"),
   ("CEILING", some "CEILING"),
   ("FLOOR", some "FLOOR"),
   ("POWER", some "POWER"),
   ("SQRT", some "SQRT"),
   ("LOG", some "LOG"),
   ("LN", some "LN"),
   ("EXP", some "EXP"),
   ("SIGN", some "SIGN"),
   ("DIV", some "DIVIDE"),
   ("ZN", some "IF"),
   ("IF", some "IF"),
   ("IIF", some "IF"),
   ("CASE", some "SWITCH"),
   ("IFNULL", some "IF"),
   ("ISNULL", some "ISBLANK"),
   ("AND", some "AND"),
   ("OR", some "OR"),
   ("NOT", some "NOT"),
   ("INT", some "INT"),
   ("FLOAT", some "VALUE"),
   ("STR", some "FORMAT"),
   ("DATE", some "DATE"),
   ("DATETIME", some "DATETIME")]

/-- Unsupported functions (calculation_translator.py, UNSUPPORTED_FUNCTIONS),
in dictionary insertion order: function name and human-readable reason. -/
def UNSUPPORTED_FUNCTIONS : List (String × String) :=
  [("FIXED", "LOD Expression - FIXED"),
   ("INCLUDE", "LOD Expression - INCLUDE"),
   ("EXCLUDE", "LOD Expression - EXCLUDE"),
   ("LOOKUP", "Table Calculation - LOOKUP"),
   ("PREVIOUS_VALUE", "Table Calculation - PREVIOUS_VALUE"),
   ("FIRST", "Table Calculation - FIRST"),
   ("LAST", "Table Calculation - LAST"),
   ("INDEX", "Table Calculation - INDEX"),
   ("SIZE", "Table Calculation - SIZE"),
   ("RUNNING_SUM", "Table Calculation - RUNNING_SUM"),
   ("RUNNING_AVG", "Table Calculation - RUNNING_AVG"),
   ("RUNNING_COUNT", "Table Calculation - RUNNING_COUNT"),
   ("RUNNING_MIN", "Table Calculation - RUNNING_MIN"),
   ("RUNNING_MAX", "Table Calculation - RUNNING_MAX"),
   ("WINDOW_SUM", "Table Calculation - WINDOW_SUM"),
   ("WINDOW_AVG", "Table Calculation - WINDOW_AVG"),
   ("WINDOW_MIN", "Table Calculation - WINDOW_MIN"),
   ("WINDOW_MAX", "Table Calculation - WINDOW_MAX"),
   ("WINDOW_COUNT", "Table Calculation - WINDOW_COUNT"),
   ("WINDOW_MEDIAN", "Table Calculation - WINDOW_MEDIAN"),
   ("WINDOW_STDEV", "Table Calculation - WINDOW_STDEV"),
   ("WINDOW_VAR", "Table Calculation - WINDOW_VAR"),
   ("RANK", "Table Calculation - RANK"),
   ("RANK_DENSE", "Table Calculation - RANK_DENSE"),
   ("RANK_MODIFIED", "Table Calculation - RANK_MODIFIED"),
   ("RANK_PERCENTILE", "Table Calculation - RANK_PERCENTILE"),
   ("RANK_UNIQUE", "Table Calculation - RANK_UNIQUE"),
   ("TOTAL", "Table Calculation - TOTAL"),
   ("SCRIPT_BOOL", "R/Python Integration"),
   ("SCRIPT_INT", "R/Python Integration"),
   ("SCRIPT_REAL", "R/Python Integration"),
   ("SCRIPT_STR", "R/Python Integration")]

/-- The LOD brace search of check_unsupported: only performed when the formula
contains both a left and a right brace; yields the matched keyword, uppercased. -/
def lodGuardSearch (formula : String) : Option String :=
  let fl := formula.toList
  if fl.contains lbrace && fl.contains rbrace then lodSearch fl else none

/-- The unsupported-function search of check_unsupported: the first entry of
UNSUPPORTED_FUNCTIONS whose pattern \bNAME\s*\( matches the uppercased formula. -/
def findUnsupported (formula : String) : Option (String × String) :=
  UNSUPPORTED_FUNCTIONS.find? (fun e => hasCall e.1.toList (pyUpperL formula.toList))

/-- CalculationTranslator._check_unsupported: LOD brace syntax first, then the
fixed unsupported-function list; returns the human-readable reason of the
first match. -/
def check_unsupported (formula : String) : Option String :=
  match lodGuardSearch formula with
  | some kw => some ("LOD Expression (" ++ kw ++ ") - Not supported in DAX")
  | none =>
    match findUnsupported formula with
    | some e => some e.2
    | none => none

/-- CalculationTranslator._qualify_field_references. -/
def qualify_field_references (table_name : String) (formula : String) : String :=
  String.mk (qualifySub table_name.toList formula.toList)

/-- CalculationTranslator._translate_aggregations: one re.sub pass per
AGGREGATION_MAP entry, in order; always returns HIGH confidence. -/
def translate_aggregations (formula : String) : String × ConfidenceLevel :=
  (String.mk (AGGREGATION_MAP.foldl (fun acc e => aggSub e.1.toList e.2.1.toList acc)
     formula.toList),
   ConfidenceLevel.HIGH)

/-- CalculationTranslator._handle_special_functions: the ZN rewrite followed by
the IFNULL rewrite. -/
def handle_special_functions (l : List Char) : List Char :=
  ifnullSub (znSub l)

/-- One FUNCTION_MAP iteration of _translate_functions: a null target lowers
the running confidence to MEDIUM when the function occurs as a call; a non-null
target is substituted by pattern. -/
def functionPass (acc : List Char × ConfidenceLevel) (e : String × Option String) :
    List Char × ConfidenceLevel :=
  match e.2 with
  | none =>
    (acc.1, if hasCall e.1.toList acc.1 then ConfidenceLevel.MEDIUM else acc.2)
  | some dax => (subCall e.1.toList dax.toList acc.1, acc.2)

/-- CalculationTranslator._translate_functions: the generic FUNCTION_MAP fold
followed by the special-case handling. -/
def translate_functions (formula : String) : String × ConfidenceLevel :=
  let r := FUNCTION_MAP.foldl functionPass (formula.toList, ConfidenceLevel.HIGH)
  (String.mk (handle_special_functions r.1), r.2)

/-- CalculationTranslator._translate_operators: returns the formula unchanged. -/
def translate_operators (formula : String) : String :=
  formula

/-- CalculationTranslator._translate_conditionals: the presence of the word
CASE lowers confidence to MEDIUM; the formula is returned unchanged. -/
def translate_conditionals (formula : String) : String × ConfidenceLevel :=
  (formula,
   if hasWordCASE formula.toList then ConfidenceLevel.MEDIUM else ConfidenceLevel.HIGH)

/-- The confidence update of _translate_expression: the stage confidence
replaces the running one exactly when its Enum label string is smaller in the
Python string order. -/
def confUpdate (cur new : ConfidenceLevel) : ConfidenceLevel :=
  if charListLt new.value.toList cur.value.toList then new else cur

/-- CalculationTranslator._translate_expression: qualification, aggregation
rewrite, function rewrite, operator pass and conditional pass, with the
label-string confidence update after each confidence-bearing stage. -/
def translate_expression (table_name : String) (formula : String) :
    String × ConfidenceLevel :=
  let r1 := qualify_field_references table_name formula
  let p2 := translate_aggregations r1
  let c2 := confUpdate ConfidenceLevel.HIGH p2.2
  let p3 := translate_functions p2.1
  let c3 := confUpdate c2 p3.2
  let r4 := translate_operators p3.1
  let p5 := translate_conditionals r4
  let c5 := confUpdate c3 p5.2
  (p5.1, c5)

/-- CalculationTranslator.translate: empty check, strip, unsupported check,
then the rewrite pipeline. The pipeline body is total, so the except branch of
the source (internal error, confidence LOW) is unreachable and has no
counterpart here. -/
def translate (table_name : String) (tableau_formula : String) :
    Option String × ConfidenceLevel × Option String :=
  if tableau_formula = "" then (none, ConfidenceLevel.HIGH, none)
  else
    let formula := pyStrip tableau_formula
    match check_unsupported formula with
    | some reason => (none, ConfidenceLevel.UNSUPPORTED, some reason)
    | none =>
      let p := translate_expression table_name formula
      (some p.1, p.2, none)

/-- CalculationTranslator.get_aggregation_type: the first AGGREGATION_MAP entry
whose pattern \bNAME\s*\( matches the uppercased formula. -/
def get_aggregation_type (formula : String) : AggregationType :=
  if formula = "" then AggregationType.NONE
  else
    match AGGREGATION_MAP.find? (fun e => hasCall e.1.toList (pyUpperL formula.toList)) with
    | some e => e.2.2
    | none => AggregationType.NONE

/-- A column or field in Tableau (tableau_schema.py, TableauColumn). -/
structure TableauColumn where
  name : String
  caption : Option String := none
  datatype : TableauDataType := .STRING
  role : TableauRole := .DIMENSION
  calculation : Option String := none
  calculation_type : CalculationType := .BASIC
  aggregation : Option String := none
  is_hidden : Bool := false
  source_table : Option String := none
deriving DecidableEq

/-- The display_name property: caption if truthy, else name. -/
def TableauColumn.display_name (c : TableauColumn) : String :=
  match c.caption with
  | some s => if s = "" then c.name else s
  | none => c.name

/-- A logical table in Tableau (tableau_schema.py, TableauTable). -/
structure TableauTable where
  name : String
  caption : Option String := none
  columns : List TableauColumn := []
  is_extract : Bool := false
  connection_type : Option String := none
deriving DecidableEq

/-- The display_name property of a table: caption if truthy, else name. -/
def TableauTable.display_name (t : TableauTable) : String :=
  match t.caption with
  | some s => if s = "" then t.name else s
  | none => t.name

/-- A Tableau datasource (tableau_schema.py, TableauDatasource). The untyped
parameters and connection_info dictionaries, which the transformer never
reads, are not modelled. -/
structure TableauDatasource where
  name : String
  caption : Option String := none
  tables : List TableauTable := []
  calculated_fields : List TableauColumn := []
deriving DecidableEq

/-- A filter in Tableau (tableau_schema.py, TableauFilter); values, which are
untyped in the source, are modelled as strings. -/
structure TableauFilter where
  field_name : String
  filter_type : String
  values : List String := []
  include_null : Bool := false
  is_global : Bool := false
deriving DecidableEq

/-- One entry of a shelf's untyped field dictionaries: the transformer reads
only the name and aggregation keys, each possibly absent. -/
structure ShelfField where
  name : Option String := none
  aggregation : Option String := none
deriving DecidableEq

/-- A shelf in a worksheet (tableau_schema.py, TableauShelf). -/
structure TableauShelf where
  shelf_type : String
  fields : List ShelfField := []
deriving DecidableEq

/-- A Tableau worksheet (tableau_schema.py, TableauWorksheet); marks is the
insertion-ordered dictionary from mark-channel name to field references. -/
structure TableauWorksheet where
  name : String
  datasource_name : Option String := none
  visual_type : TableauVisualType := .UNKNOWN
  shelves : List TableauShelf := []
  filters : List TableauFilter := []
  title : Option String := none
  is_dual_axis : Bool := false
  mark_type : Option String := none
  rows : List String := []
  columns : List String := []
  marks : List (String × List String) := []
deriving DecidableEq

/-- A dashboard zone (tableau_schema.py, TableauDashboardZone). -/
structure TableauDashboardZone where
  zone_id : String
  zone_type : String
  worksheet_name : Option String := none
  x : Int := 0
  y : Int := 0
  width : Int := 100
  height : Int := 100
deriving DecidableEq

/-- A Tableau dashboard (tableau_schema.py, TableauDashboard). -/
structure TableauDashboard where
  name : String
  zones : List TableauDashboardZone := []
  width : Int := 1280
  height : Int := 800
  title : Option String := none
deriving DecidableEq

/-- A complete Tableau workbook (tableau_schema.py, TableauWorkbook); the
untyped parameters list and the version string are not modelled. -/
structure TableauWorkbook where
  name : String
  datasources : List TableauDatasource := []
  worksheets : List TableauWorksheet := []
  dashboards : List TableauDashboard := []
deriving DecidableEq

/-- TableauWorkbook.get_worksheet_by_name: first worksheet with the given name. -/
def get_worksheet_by_name (wb : TableauWorkbook) (name : String) :
    Option TableauWorksheet :=
  wb.worksheets.find? (fun ws => ws.name == name)

/-- A platform-agnostic column (canonical_schema.py, CanonicalColumn). -/
structure CanonicalColumn where
  name : String
  display_name : String
  data_type : DataType
  is_nullable : Bool := true
  is_key : Bool := false
  source_column : Option String := none
  description : Option String := none
deriving DecidableEq

/-- A platform-agnostic measure (canonical_schema.py, CanonicalMeasure). -/
structure CanonicalMeasure where
  name : String
  display_name : String
  expression : String
  dax_expression : Option String := none
  confidence : ConfidenceLevel := .HIGH
  aggregation : AggregationType := .SUM
  format_string : Option String := none
  description : Option String := none
  unsupported_reason : Option String := none
deriving DecidableEq

/-- A platform-agnostic table (canonical_schema.py, CanonicalTable). -/
structure CanonicalTable where
  name : String
  display_name : String
  columns : List CanonicalColumn := []
  measures : List CanonicalMeasure := []
  source_table : Option String := none
  is_calculated : Bool := false
  description : Option String := none
deriving DecidableEq

/-- A relationship between tables (canonical_schema.py, CanonicalRelationship). -/
structure CanonicalRelationship where
  from_table : String
  from_column : String
  to_table : String
  to_column : String
  is_active : Bool := true
  cardinality : String := "many-to-one"
deriving DecidableEq

/-- A platform-agnostic dataset (canonical_schema.py, CanonicalDataset). -/
structure CanonicalDataset where
  name : String
  tables : List CanonicalTable := []
  relationships : List CanonicalRelationship := []
  description : Option String := none
deriving DecidableEq

/-- An encoding of a field on a visual channel (canonical_schema.py,
VisualEncoding). -/
structure VisualEncoding where
  field_name : String
  table_name : Option String := none
  aggregation : AggregationType := .NONE
  is_measure : Bool := false
  format_string : Option String := none
deriving DecidableEq

/-- A platform-agnostic visual (canonical_schema.py, CanonicalVisual); the
untyped properties dictionary, never read by this core, is not modelled. -/
structure CanonicalVisual where
  id : String
  name : String
  visual_type : VisualType
  x : Int := 0
  y : Int := 0
  width : Int := 400
  height : Int := 300
  title : Option String := none
  category : List VisualEncoding := []
  values : List VisualEncoding := []
  series : List VisualEncoding := []
  tooltip : List VisualEncoding := []
  source_worksheet : Option String := none
  confidence : ConfidenceLevel := .HIGH
  unsupported_features : List String := []
deriving DecidableEq

/-- A platform-agnostic filter (canonical_schema.py, CanonicalFilter); values
are modelled as strings. -/
structure CanonicalFilter where
  field_name : String
  filter_type : String
  table_name : Option String := none
  values : List String := []
  operator : Option String := none
  is_slicer : Bool := false
deriving DecidableEq

/-- A platform-agnostic page (canonical_schema.py, CanonicalPage). -/
structure CanonicalPage where
  id : String
  name : String
  display_name : String
  width : Int := 1280
  height : Int := 720
  visuals : List CanonicalVisual := []
  filters : List CanonicalFilter := []
  source_dashboard : Option String := none
deriving DecidableEq

/-- A complete platform-agnostic report (canonical_schema.py,
CanonicalReport). The per-run warning and unsupported-feature accumulators of
the transformer object are side-channel bookkeeping that no claim touches;
the corresponding fields are modelled as left empty. -/
structure CanonicalReport where
  name : String
  dataset : CanonicalDataset
  pages : List CanonicalPage := []
  theme : Option String := none
  description : Option String := none
  source_file : Option String := none
  migration_warnings : List String := []
deriving DecidableEq

/-- The page and visual id generators (_generate_page_id via an md5 digest,
_generate_visual_id via a uuid5 digest) are deterministic hex-digest
truncations whose values no claim depends on; they are kept abstract as a
parameter of the mapping engine. -/
structure IdGen where
  generate_page_id : String → String
  generate_visual_id : String → String

/-- Visual type mapping (canonical_transformer.py, VISUAL_TYPE_MAP, a total
lookup: the dictionary covers every TableauVisualType, so the .get default is
never used). -/
def visualTypeMap : TableauVisualType → VisualType
  | .BAR => .CLUSTERED_BAR
  | .LINE => .LINE_CHART
  | .AREA => .AREA_CHART
  | .PIE => .PIE_CHART
  | .SCATTER => .SCATTER
  | .TEXT_TABLE => .TABLE
  | .CROSSTAB => .MATRIX
  | .MAP => .MAP
  | .TREEMAP => .TREEMAP
  | .HEATMAP => .MATRIX
  | .HISTOGRAM => .CLUSTERED_BAR
  | .GANTT => .BAR_CHART
  | .BULLET => .CLUSTERED_BAR
  | .PACKED_BUBBLE => .SCATTER
  | .DUAL_AXIS => .LINE_CHART
  | .COMBINED_AXIS => .LINE_CHART
  | .UNKNOWN => .TABLE

/-- Data type mapping (canonical_transformer.py, DATA_TYPE_MAP; the .get
default STRING coincides with the UNKNOWN entry). -/
def dataTypeMap : TableauDataType → DataType
  | .STRING => .STRING
  | .INTEGER => .INTEGER
  | .REAL => .DOUBLE
  | .DATE => .DATE
  | .DATETIME => .DATETIME
  | .BOOLEAN => .BOOLEAN
  | .UNKNOWN => .STRING

/-- Python x or y for an optional string: the option when it is truthy
(present and non-empty), else the default. -/
def orElseStr (o : Option String) (d : String) : String :=
  match o with
  | some s => if s = "" then d else s
  | none => d

/-- Python truthiness of an optional string: present and non-empty. -/
def truthyOpt (o : Option String) : Bool :=
  match o with
  | some s => !(s = "")
  | none => false

/-- Characters kept by name sanitization: alphanumeric, underscore or hyphen. -/
def keepChar (c : Char) : Bool :=
  pyIsAlnum c || c = '_' || c = '-'

/-- The space replacement and character filter of _sanitize_name. -/
def sanitizeCore (l : List Char) : List Char :=
  (l.map (fun c => if c = ' ' then '_' else c)).filter keepChar

/-- CanonicalTransformer._sanitize_name: empty input falls back to Unnamed;
spaces become underscores; characters outside the kept class are dropped; a
leading digit is prefixed with an underscore; an empty result falls back to
Field. -/
def sanitize_name (name : String) : String :=
  if name = "" then "Unnamed"
  else
    let s := sanitizeCore name.toList
    let s2 : List Char :=
      match s with
      | [] => []
      | c :: cs => if c.isDigit then '_' :: c :: cs else c :: cs
    if s2.isEmpty then "Field" else String.mk s2

/-- CanonicalTransformer._convert_table: sanitized name, mapped column types,
and a synthesized Placeholder column when the source table has none. The
datasource parameter is unused, as in the source. -/
def convert_table (t : TableauTable) (_ds : TableauDatasource) : CanonicalTable :=
  let columns := t.columns.map (fun col =>
    { name := sanitize_name col.name
      display_name := col.display_name
      data_type := dataTypeMap col.datatype
      source_column := some col.name : CanonicalColumn })
  let columns :=
    if columns.isEmpty then
      [{ name := "Placeholder", display_name := "Placeholder",
         data_type := DataType.STRING : CanonicalColumn }]
    else columns
  { name := sanitize_name t.name
    display_name := t.display_name
    columns := columns
    source_table := some t.name }

/-- CanonicalTransformer._convert_calculated_field: no measure for a field
whose calculation is absent or empty (Python falsiness); otherwise the
translation outcome is threaded into the measure. -/
def convert_calculated_field (cf : TableauColumn) (ds : TableauDatasource) :
    Option CanonicalMeasure :=
  match cf.calculation with
  | none => none
  | some c =>
    if c = "" then none
    else
      let table_name :=
        match ds.tables with
        | [] => "Data"
        | t :: _ => t.name
      let tr := translate (sanitize_name table_name) c
      some { name := sanitize_name cf.name
             display_name := cf.display_name
             expression := c
             dax_expression := tr.1
             confidence := tr.2.1
             aggregation := get_aggregation_type c
             unsupported_reason := tr.2.2 }

/-- CanonicalTransformer._process_datasource: tables are converted first; each
produced measure is then appended both to the first table (when one exists)
and to the returned measure list, in calculated-field order. -/
def process_datasource (ds : TableauDatasource) :
    List CanonicalTable × List CanonicalMeasure :=
  let tables := ds.tables.map (fun t => convert_table t ds)
  let ms := ds.calculated_fields.filterMap (fun cf => convert_calculated_field cf ds)
  match tables with
  | [] => ([], ms)
  | t :: rest => ({ t with measures := t.measures ++ ms } :: rest, ms)

/-- First-occurrence deduplication, modelling iteration over the set of field
references collected by _create_placeholder_table. -/
def dedupAux (seen : List String) : List String → List String
  | [] => []
  | x :: xs =>
    if seen.contains x then dedupAux seen xs
    else x :: dedupAux (x :: seen) xs

/-- CanonicalTransformer._create_placeholder_table: columns from the distinct
field references of all worksheets (rows, columns, then mark channels), with
a synthesized Value column when there are none. -/
def create_placeholder_table (wb : TableauWorkbook) : CanonicalTable :=
  let fields := wb.worksheets.foldl
    (fun acc ws => acc ++ ws.rows ++ ws.columns ++ (ws.marks.map Prod.snd).flatten) []
  let fields := dedupAux [] fields
  let columns := fields.map (fun f =>
    { name := sanitize_name f, display_name := f,
      data_type := DataType.STRING : CanonicalColumn })
  let columns :=
    if columns.isEmpty then
      [{ name := "Value", display_name := "Value",
         data_type := DataType.STRING : CanonicalColumn }]
    else columns
  { name := "Data"
    display_name := "Data"
    columns := columns
    description := some "Placeholder table - no datasource metadata available" }

/-- The per-datasource table accumulation of _create_dataset, in datasource
order. -/
def datasetTables : List TableauDatasource → List CanonicalTable
  | [] => []
  | ds :: rest => (process_datasource ds).1 ++ datasetTables rest

/-- CanonicalTransformer._create_dataset: the accumulated tables, with a
placeholder table appended when there are none. -/
def create_dataset (wb : TableauWorkbook) : CanonicalDataset :=
  let tables := datasetTables wb.datasources
  let tables := if tables.isEmpty then [create_placeholder_table wb] else tables
  { name := wb.name ++ "_Model"
    tables := tables
    description := some ("Semantic model migrated from Tableau workbook: " ++ wb.name) }

/-- Exact prefix matcher on character lists. -/
def startsWithChars : List Char → List Char → Bool
  | [], _ => true
  | _ :: _, [] => false
  | p :: ps, c :: cs => p == c && startsWithChars ps cs

/-- Python substring containment (the in operator) on character lists. -/
def containsSub (pat : List Char) : List Char → Bool
  | [] => pat.isEmpty
  | c :: rest => startsWithChars pat (c :: rest) || containsSub pat rest

/-- CanonicalTransformer._is_measure_field: an explicit aggregation annotation
on a shelf, a name match against an already-produced measure, or a
numeric-sounding keyword in the lowercased name. -/
def is_measure_field (field_name : String) (ws : TableauWorksheet)
    (ds : CanonicalDataset) : Bool :=
  ws.shelves.any (fun shelf => shelf.fields.any (fun f =>
      f.name == some field_name && truthyOpt f.aggregation))
  || ds.tables.any (fun t => t.measures.any (fun m => m.name == sanitize_name field_name))
  || ["sum", "avg", "count", "sales", "profit", "quantity",
      "revenue", "amount", "total", "price"].any
       (fun ind => containsSub ind.toList (pyLowerL field_name.toList))

/-- CanonicalTransformer._set_visual_encodings: rows feed the category
channel; columns feed values or series depending on the measure heuristic;
tooltip and color mark channels feed tooltip and series. -/
def set_visual_encodings (v : CanonicalVisual) (ws : TableauWorksheet)
    (ds : CanonicalDataset) : CanonicalVisual :=
  let table_name :=
    match ds.tables with
    | [] => "Data"
    | t :: _ => t.name
  let v := ws.rows.foldl (fun v f =>
    { v with category := v.category ++
        [{ field_name := sanitize_name f, table_name := some table_name,
           is_measure := false : VisualEncoding }] }) v
  let v := ws.columns.foldl (fun v f =>
    let m := is_measure_field f ws ds
    let e : VisualEncoding :=
      { field_name := sanitize_name f, table_name := some table_name,
        is_measure := m,
        aggregation := if m then AggregationType.SUM else AggregationType.NONE }
    if m then { v with values := v.values ++ [e] }
    else { v with series := v.series ++ [e] }) v
  ws.marks.foldl (fun v et =>
    et.2.foldl (fun v f =>
      let e : VisualEncoding :=
        { field_name := sanitize_name f, table_name := some table_name }
      if et.1 == "tooltip" then { v with tooltip := v.tooltip ++ [e] }
      else if et.1 == "color" then { v with series := v.series ++ [e] }
      else v) v) v

/-- CanonicalTransformer._scale_zone_position: proportional scaling from an
assumed 1200x800 source canvas to the 1280x720 target canvas (the float
products of the source are modelled as exact rationals truncated toward
zero), minimum 100-unit width and height, then clamping of x and y against
the canvas edges. -/
def scale_zone_position (zone : TableauDashboardZone) : Int × Int × Int × Int :=
  let pbi_width : Int := 1280
  let pbi_height : Int := 720
  let tb_width : Int := 1200
  let tb_height : Int := 800
  let x := Int.tdiv (zone.x * pbi_width) tb_width
  let y := Int.tdiv (zone.y * pbi_height) tb_height
  let width := Int.tdiv (zone.width * pbi_width) tb_width
  let height := Int.tdiv (zone.height * pbi_height) tb_height
  let width := max width 100
  let height := max height 100
  let x := min x (pbi_width - width)
  let y := min y (pbi_height - height)
  (x, y, width, height)

/-- CanonicalTransformer._convert_worksheet_to_visual: zone-positioned visual
with the dual-axis downgrade and the channel encodings. -/
def convert_worksheet_to_visual (g : IdGen) (ws : TableauWorksheet)
    (zone : TableauDashboardZone) (ds : CanonicalDataset) : CanonicalVisual :=
  let p := scale_zone_position zone
  let v : CanonicalVisual :=
    { id := g.generate_visual_id ws.name
      name := ws.name
      visual_type := visualTypeMap ws.visual_type
      x := p.1
      y := p.2.1
      width := p.2.2.1
      height := p.2.2.2
      title := some (orElseStr ws.title ws.name)
      source_worksheet := some ws.name
      confidence := if ws.is_dual_axis then ConfidenceLevel.MEDIUM else ConfidenceLevel.HIGH
      unsupported_features :=
        if ws.is_dual_axis then ["Dual-axis chart - converted to single axis"] else [] }
  set_visual_encodings v ws ds

/-- CanonicalTransformer._create_visual_from_worksheet: fixed 2-column grid
layout indexed by worksheet order, with the dual-axis downgrade. -/
def create_visual_from_worksheet (g : IdGen) (ws : TableauWorksheet)
    (ds : CanonicalDataset) (index : Nat) : CanonicalVisual :=
  let col := index % 2
  let row := index / 2
  let v : CanonicalVisual :=
    { id := g.generate_visual_id ws.name
      name := ws.name
      visual_type := visualTypeMap ws.visual_type
      x := Int.ofNat (50 + col * 600)
      y := Int.ofNat (50 + row * 400)
      width := 550
      height := 350
      title := some (orElseStr ws.title ws.name)
      source_worksheet := some ws.name
      confidence := if ws.is_dual_axis then ConfidenceLevel.MEDIUM else ConfidenceLevel.HIGH
      unsupported_features := if ws.is_dual_axis then ["Dual-axis chart"] else [] }
  set_visual_encodings v ws ds

/-- CanonicalTransformer._convert_dashboard: one visual per resolvable viz
zone, falling back to one visual per worksheet when no zone resolves. The
index parameter is unused, as in the source. -/
def convert_dashboard (g : IdGen) (db : TableauDashboard) (wb : TableauWorkbook)
    (ds : CanonicalDataset) (_index : Nat) : CanonicalPage :=
  let visuals := db.zones.foldl (fun acc zone =>
    if zone.zone_type == "viz" && truthyOpt zone.worksheet_name then
      match zone.worksheet_name with
      | some wsname =>
        match get_worksheet_by_name wb wsname with
        | some ws => acc ++ [convert_worksheet_to_visual g ws zone ds]
        | none => acc
      | none => acc
    else acc) []
  let visuals :=
    if visuals.isEmpty then
      (wb.worksheets.enum.map (fun p => create_visual_from_worksheet g p.2 ds p.1))
    else visuals
  { id := g.generate_page_id db.name
    name := sanitize_name db.name
    display_name := orElseStr db.title db.name
    width := min db.width 1920
    height := min db.height 1080
    visuals := visuals
    source_dashboard := some db.name }

/-- CanonicalTransformer._create_page_from_worksheet: a fixed-size page with a
single visual. The index parameter is unused beyond its role in the source,
where the visual index passed on is zero. -/
def create_page_from_worksheet (g : IdGen) (ws : TableauWorksheet)
    (ds : CanonicalDataset) (_index : Nat) : CanonicalPage :=
  { id := g.generate_page_id ws.name
    name := sanitize_name ws.name
    display_name := orElseStr ws.title ws.name
    width := 1280
    height := 720
    visuals := [create_visual_from_worksheet g ws ds 0] }

/-- CanonicalTransformer._create_pages: one page per dashboard when there are
dashboards, else one page per worksheet, else a single synthesized 1280x720
default page. -/
def create_pages (g : IdGen) (wb : TableauWorkbook) (ds : CanonicalDataset) :
    List CanonicalPage :=
  let pages :=
    if !wb.dashboards.isEmpty then
      wb.dashboards.enum.map (fun p => convert_dashboard g p.2 wb ds p.1)
    else
      wb.worksheets.enum.map (fun p => create_page_from_worksheet g p.2 ds p.1)
  if pages.isEmpty then
    [{ id := g.generate_page_id "Page1", name := "Page1", display_name := "Page 1",
       width := 1280, height := 720 }]
  else pages

/-- CanonicalTransformer.transform: dataset from datasources, pages from
dashboards or worksheets, assembled into the report. -/
def transform (g : IdGen) (wb : TableauWorkbook) : CanonicalReport :=
  let dataset := create_dataset wb
  let pages := create_pages g wb dataset
  { name := wb.name
    dataset := dataset
    pages := pages
    source_file := some wb.name }

/-- Number of CanonicalMeasures in a table list. -/
def tablesMeasures : List CanonicalTable → Nat
  | [] => 0
  | t :: ts => t.measures.length + tablesMeasures ts

/-- Number of CanonicalMeasures summed across all tables of a dataset. -/
def measuresTotal (d : CanonicalDataset) : Nat :=
  tablesMeasures d.tables

/-- Number of source calculated fields whose formula is non-null, the count
the measure-count claim states. -/
def calcFieldsWithFormula (wb : TableauWorkbook) : Nat :=
  (wb.datasources.map (fun ds =>
    (ds.calculated_fields.filter (fun cf => cf.calculation.isSome)).length)).sum

/-- Python truthiness of a calculated field's formula: non-null and non-empty. -/
def truthyCalc (cf : TableauColumn) : Bool :=
  truthyOpt cf.calculation

/-- Number of source calculated fields whose formula is non-null and
non-empty, the count the engine actually materialises. -/
def calcFieldsWithNonEmptyFormula (wb : TableauWorkbook) : Nat :=
  (wb.datasources.map (fun ds => ds.calculated_fields.countP truthyCalc)).sum

/-- Whether the unsupported-construct detector of check_unsupported fires on a
formula: a brace-delimited LOD scope, or a call of a function from the fixed
unsupported list. -/
def formula_flags_unsupported (f : String) : Bool :=
  (lodGuardSearch f).isSome || (findUnsupported f).isSome

/-- A concrete id generator for closed instances; all claims are independent
of the generated id values. -/
def identityIdGen : IdGen :=
  { generate_page_id := fun s => s, generate_visual_id := fun s => s }

/-- A datasource with a calculated field but no tables: the case in which the
engine drops the produced measures. -/
def dsNoTables : TableauDatasource :=
  { name := "Sales Data"
    tables := []
    calculated_fields := [{ name := "Total Sales", calculation := some "SUM([Sales])" }] }

/-- A workbook whose only datasource has a calculated field but no tables. -/
def wbNoTables : TableauWorkbook :=
  { name := "Workbook", datasources := [dsNoTables] }

/-- A datasource with one table, one calculated field with a formula and one
calculated field without. -/
def dsWithTable : TableauDatasource :=
  { name := "Sales Data"
    tables := [{ name := "Orders",
                 columns := [{ name := "Sales", datatype := TableauDataType.REAL }] }]
    calculated_fields :=
      [{ name := "Total Sales", calculation := some "SUM([Sales])" },
       { name := "No Formula" }] }

/-- A workbook whose only datasource has a table. -/
def wbWithTable : TableauWorkbook :=
  { name := "Workbook", datasources := [dsWithTable] }

/-- A calculated field used as a concrete measure-conversion input. -/
def cfWitness : TableauColumn :=
  { name := "Total Sales", calculation := some "SUM([Sales])" }

/-- The measure the engine produces from cfWitness against dsWithTable. -/
def measureWitness : CanonicalMeasure :=
  { name := "Total_Sales"
    display_name := "Total Sales"
    expression := "SUM([Sales])"
    dax_expression := some ("SUM(" ++ quoteStr ++ "Orders" ++ quoteStr ++ "[Sales])")
    confidence := ConfidenceLevel.HIGH
    aggregation := AggregationType.SUM
    unsupported_reason := none }

/-- A workbook with no datasources, worksheets or dashboards. -/
def wbEmpty : TableauWorkbook :=
  { name := "Empty" }

/-- Updating from HIGH never changes the confidence: every other label string
is lexicographically larger than the label of HIGH, so the source comparison
by Enum value can never lower a HIGH running confidence. -/
theorem confUpdate_HIGH (c : ConfidenceLevel) :
    confUpdate ConfidenceLevel.HIGH c = ConfidenceLevel.HIGH := by
  cases c <;> decide

/-- The rewrite pipeline always reports HIGH confidence: the running
confidence starts at HIGH and the label-string comparison never replaces it. -/
theorem translate_expression_snd (t f : String) :
    (translate_expression t f).2 = ConfidenceLevel.HIGH := by
  simp [translate_expression, confUpdate_HIGH]

/-- Shape of translate when the unsupported check fires on the stripped
formula. -/
theorem translate_eq_of_unsupported (t f r : String)
    (hne : ¬ f = "") (h : check_unsupported (pyStrip f) = some r) :
    translate t f = (none, ConfidenceLevel.UNSUPPORTED, some r) := by
  simp [translate, hne, h]

/-- Shape of translate when the unsupported check does not fire on the
stripped formula. -/
theorem translate_eq_of_supported (t f : String)
    (hne : ¬ f = "") (h : check_unsupported (pyStrip f) = none) :
    translate t f
      = (some (translate_expression t (pyStrip f)).1, ConfidenceLevel.HIGH, none) := by
  simp [translate, hne, h, translate_expression_snd]

/-- Claim C3: every CanonicalMeasure produced by the mapping engine satisfies
both invariants: its translated DAX expression is null exactly when its
confidence is UNSUPPORTED, and its unsupported-reason string is non-null
exactly when its confidence is UNSUPPORTED. The internal-error branch of the
translator (confidence LOW with a null expression) cannot produce a measure,
since the pipeline body is total, so the invariant holds for every measure. -/
theorem measure_expression_iff_unsupported (cf : TableauColumn)
    (ds : TableauDatasource) (m : CanonicalMeasure)
    (h : convert_calculated_field cf ds = some m) :
    (m.dax_expression = none ↔ m.confidence = ConfidenceLevel.UNSUPPORTED) ∧
    (m.unsupported_reason ≠ none ↔ m.confidence = ConfidenceLevel.UNSUPPORTED) := by
  rcases hc : cf.calculation with _ | c
  · simp [convert_calculated_field, hc] at h
  · by_cases he : c = ""
    · simp [convert_calculated_field, hc, he] at h
    · simp [convert_calculated_field, hc, he] at h
      rcases hcu : check_unsupported (pyStrip c) with _ | r
      · rw [translate_eq_of_supported _ _ he hcu] at h
        rw [← h]
        simp
      · rw [translate_eq_of_unsupported _ _ _ he hcu] at h
        rw [← h]
        simp

/-- Witness for C3: the invariant instantiated at a concrete calculated field
converted against a concrete datasource. -/
theorem measure_expression_iff_unsupported_witness :
    convert_calculated_field cfWitness dsWithTable = some measureWitness ∧
    ((measureWitness.dax_expression = none
        ↔ measureWitness.confidence = ConfidenceLevel.UNSUPPORTED) ∧
     (measureWitness.unsupported_reason ≠ none
        ↔ measureWitness.confidence = ConfidenceLevel.UNSUPPORTED)) :=
  ⟨by decide,
   measure_expression_iff_unsupported cfWitness dsWithTable measureWitness (by decide)⟩

/-- Claim C5: whenever the unsupported-construct detector fires on a formula
(a call of a function from the fixed unsupported list, matched
case-insensitively, or a brace-delimited FIXED/INCLUDE/EXCLUDE scope),
translate returns a null expression, confidence UNSUPPORTED and a non-null
human-readable reason, regardless of any other content of the formula: no
partial translation is emitted. -/
theorem unsupported_construct_short_circuits (t f : String)
    (h : formula_flags_unsupported (pyStrip f) = true) :
    (translate t f).1 = none ∧
    (translate t f).2.1 = ConfidenceLevel.UNSUPPORTED ∧
    (translate t f).2.2 ≠ none := by
  have hne : ¬ f = "" := by
    intro hf
    rw [hf] at h
    exact absurd h (by decide)
  have hcu : ∃ r, check_unsupported (pyStrip f) = some r := by
    unfold formula_flags_unsupported at h
    rcases hl : lodGuardSearch (pyStrip f) with _ | kw
    · rw [hl] at h
      simp at h
      rcases hf : findUnsupported (pyStrip f) with _ | e
      · rw [hf] at h
        simp at h
      · exact ⟨e.2, by simp [check_unsupported, hl, hf]⟩
    · exact ⟨"LOD Expression (" ++ kw ++ ") - Not supported in DAX",
        by simp [check_unsupported, hl]⟩
  obtain ⟨r, hr⟩ := hcu
  rw [translate_eq_of_unsupported t f r hne hr]
  simp

/-- Witness for C5: a RUNNING_SUM table calculation mixed with otherwise
well-formed content short-circuits the whole pipeline. -/
theorem unsupported_construct_short_circuits_witness :
    formula_flags_unsupported (pyStrip "RUNNING_SUM([Sales]) + SUM([Profit])") = true ∧
    ((translate "Data" "RUNNING_SUM([Sales]) + SUM([Profit])").1 = none ∧
     (translate "Data" "RUNNING_SUM([Sales]) + SUM([Profit])").2.1
        = ConfidenceLevel.UNSUPPORTED ∧
     (translate "Data" "RUNNING_SUM([Sales]) + SUM([Profit])").2.2 ≠ none) :=
  ⟨by decide,
   unsupported_construct_short_circuits "Data" "RUNNING_SUM([Sales]) + SUM([Profit])"
     (by decide)⟩

/-- Claim C1 (code bug): the source intends the weakest stage confidence to
win, but compares Enum label strings, under which the label of HIGH is
smallest; on a SPLIT formula (lookup target null) the function stage computes
MEDIUM, yet translate returns HIGH, contradicting the specified severity
composition. -/
theorem null_target_function_keeps_high_confidence :
    translate "Data" "SPLIT([Name], \",\", 1)"
      = (some ("SPLIT(" ++ quoteStr ++ "Data" ++ quoteStr ++ "[Name], \",\", 1)"),
         ConfidenceLevel.HIGH, none) ∧
    (translate_functions
        ("SPLIT(" ++ quoteStr ++ "Data" ++ quoteStr ++ "[Name], \",\", 1)")).2
      = ConfidenceLevel.MEDIUM := by
  decide

/-- Claim C4 (code bug): the generic FUNCTION_MAP pass renames ZN( and
IFNULL( to IF( before _handle_special_functions looks for them, so the
documented null-coalescing rewrite never fires: ZN([Sales]) and
IFNULL([Sales], 0) come out as bare IF applications without any ISBLANK
wrapping. -/
theorem zn_ifnull_special_rewrite_dead :
    translate "Data" "ZN([Sales])"
      = (some ("IF(" ++ quoteStr ++ "Data" ++ quoteStr ++ "[Sales])"),
         ConfidenceLevel.HIGH, none) ∧
    translate "Data" "IFNULL([Sales], 0)"
      = (some ("IF(" ++ quoteStr ++ "Data" ++ quoteStr ++ "[Sales], 0)"),
         ConfidenceLevel.HIGH, none) := by
  decide

/-- Claim C8: translating SUM([Sales]) against table Orders yields the
table-qualified reference wrapped in the DAX SUM, confidence HIGH, and the
inferred aggregation kind sum. -/
theorem sum_sales_round_trip :
    translate "Orders" "SUM([Sales])"
      = (some ("SUM(" ++ quoteStr ++ "Orders" ++ quoteStr ++ "[Sales])"),
         ConfidenceLevel.HIGH, none) ∧
    get_aggregation_type "SUM([Sales])" = AggregationType.SUM := by
  decide

/-- Every character kept by the sanitization filter is kept again by a second
pass. -/
theorem keepChar_of_mem_sanitizeCore {c : Char} {l : List Char}
    (h : c ∈ sanitizeCore l) : keepChar c = true :=
  (List.mem_filter.mp h).2

/-- The sanitization core is the identity on lists of kept characters. -/
theorem sanitizeCore_eq_self {l : List Char} (h : ∀ c ∈ l, keepChar c = true) :
    sanitizeCore l = l := by
  induction l with
  | nil => rfl
  | cons c cs ih =>
    have hc := h c (by simp)
    have hcs : ∀ x ∈ cs, keepChar x = true := fun x hx => h x (by simp [hx])
    have hne : ¬ c = ' ' := by
      intro he
      rw [he] at hc
      exact absurd hc (by decide)
    unfold sanitizeCore
    simp only [List.map_cons, if_neg hne, List.filter_cons, hc, if_pos]
    exact congrArg (List.cons c) (ih hcs)

/-- A string built from a nonempty character list is not the empty string. -/
theorem stringMk_cons_ne_empty (c : Char) (l : List Char) :
    ¬ (String.mk (c :: l) = "") := by
  intro h
  have h2 := congrArg String.toList h
  exact List.noConfusion h2

/-- sanitize_name is the identity on a nonempty string of kept characters
whose first character is not a digit. -/
theorem sanitize_name_fixed (c : Char) (cs : List Char)
    (hkeep : ∀ x ∈ (c :: cs), keepChar x = true) (hd : c.isDigit = false) :
    sanitize_name (String.mk (c :: cs)) = String.mk (c :: cs) := by
  unfold sanitize_name
  rw [if_neg (stringMk_cons_ne_empty c cs)]
  rw [show (String.mk (c :: cs)).toList = c :: cs from rfl]
  rw [sanitizeCore_eq_self hkeep]
  simp [hd]

/-- Name sanitization is idempotent. -/
theorem sanitize_name_idem (n : String) :
    sanitize_name (sanitize_name n) = sanitize_name n := by
  by_cases hn : n = ""
  · rw [hn]
    decide
  · rcases hs : sanitizeCore n.data with _ | ⟨c, cs⟩
    · have h1 : sanitize_name n = "Field" := by
        simp [sanitize_name, hn, hs]
      rw [h1]
      decide
    · have hkeep : ∀ x ∈ (c :: cs), keepChar x = true := by
        intro x hx
        exact keepChar_of_mem_sanitizeCore (hs ▸ hx)
      rcases hd : c.isDigit with _ | _
      · have h1 : sanitize_name n = String.mk (c :: cs) := by
          simp [sanitize_name, hn, hs, hd]
        rw [h1, sanitize_name_fixed c cs hkeep hd]
      · have h1 : sanitize_name n = String.mk ('_' :: c :: cs) := by
          simp [sanitize_name, hn, hs, hd]
        have hkeep2 : ∀ x ∈ ('_' :: c :: cs), keepChar x = true := by
          intro x hx
          rcases List.mem_cons.mp hx with h | h
          · rw [h]
            decide
          · exact hkeep x h
        rw [h1, sanitize_name_fixed '_' (c :: cs) hkeep2 (by decide)]

/-- Claim C6: name sanitization is idempotent, the empty name yields the
non-empty fallback Unnamed, a leading digit is prefixed with an underscore,
and a space plus a stripped character give a_bc. -/
theorem sanitize_idempotent_and_examples :
    (∀ n, sanitize_name (sanitize_name n) = sanitize_name n) ∧
    sanitize_name "" = "Unnamed" ∧ ¬ (sanitize_name "" = "") ∧
    sanitize_name "123abc" = "_123abc" ∧
    sanitize_name "a b!c" = "a_bc" :=
  ⟨sanitize_name_idem, by decide, by decide, by decide, by decide⟩

/-- Claim C7: for every dashboard zone, the scale-and-clamp transform yields a
bounding box with width and height at least 100 and with x plus width at most
1280 and y plus height at most 720. -/
theorem scale_zone_position_within_canvas (zone : TableauDashboardZone) :
    100 ≤ (scale_zone_position zone).2.2.1 ∧
    100 ≤ (scale_zone_position zone).2.2.2 ∧
    (scale_zone_position zone).1 + (scale_zone_position zone).2.2.1 ≤ 1280 ∧
    (scale_zone_position zone).2.1 + (scale_zone_position zone).2.2.2 ≤ 720 := by
  unfold scale_zone_position
  dsimp only []
  omega

/-- Claim C10: the clamp enforces only the upper canvas bounds, so a zone
whose scaled width exceeds 1280 (and scaled height exceeds 720) produces a
visual with negative x (and negative y). -/
theorem clamp_can_produce_negative_coordinates :
    ∃ z : TableauDashboardZone,
      1280 < (scale_zone_position z).2.2.1 ∧ (scale_zone_position z).1 < 0 ∧
      720 < (scale_zone_position z).2.2.2 ∧ (scale_zone_position z).2.1 < 0 :=
  ⟨{ zone_id := "z1", zone_type := "viz", x := 0, y := 0, width := 2000, height := 2000 },
   by decide⟩

/-- A converted table carries no measures of its own. -/
theorem convert_table_measures (t : TableauTable) (ds : TableauDatasource) :
    (convert_table t ds).measures = [] := rfl

/-- The placeholder table carries no measures. -/
theorem create_placeholder_measures (wb : TableauWorkbook) :
    (create_placeholder_table wb).measures = [] := rfl

/-- Measure counting distributes over table-list concatenation. -/
theorem tablesMeasures_append (a b : List CanonicalTable) :
    tablesMeasures (a ++ b) = tablesMeasures a + tablesMeasures b := by
  induction a with
  | nil => simp [tablesMeasures]
  | cons t ts ih =>
    simp [tablesMeasures, ih]
    omega

/-- Freshly converted tables carry no measures in total. -/
theorem tablesMeasures_map_convert (ts : List TableauTable) (ds : TableauDatasource) :
    tablesMeasures (ts.map (fun t => convert_table t ds)) = 0 := by
  induction ts with
  | nil => rfl
  | cons t ts ih => simp [tablesMeasures, convert_table_measures, ih]

/-- A calculated field yields a measure exactly when its formula is truthy
(non-null and non-empty). -/
theorem isSome_convert (cf : TableauColumn) (ds : TableauDatasource) :
    (convert_calculated_field cf ds).isSome = truthyCalc cf := by
  rcases hc : cf.calculation with _ | c
  · simp [convert_calculated_field, truthyCalc, truthyOpt, hc]
  · by_cases he : c = ""
    · simp [convert_calculated_field, truthyCalc, truthyOpt, hc, he]
    · simp [convert_calculated_field, truthyCalc, truthyOpt, hc, he]

/-- The number of measures produced from a calculated-field list equals the
number of truthy formulas in it. -/
theorem length_filterMap_convert (l : List TableauColumn) (ds : TableauDatasource) :
    (l.filterMap (fun cf => convert_calculated_field cf ds)).length
      = l.countP truthyCalc := by
  induction l with
  | nil => rfl
  | cons cf cfs ih =>
    rw [List.filterMap_cons, List.countP_cons]
    rcases hc : convert_calculated_field cf ds with _ | m
    · have := isSome_convert cf ds
      rw [hc] at this
      simp [truthyCalc] at this ⊢
      rw [ih]
      simp [← this]
    · have := isSome_convert cf ds
      rw [hc] at this
      simp at this
      simp [ih, ← this]

/-- A datasource with at least one table contributes exactly its truthy
calculated-field count to the measure total. -/
theorem process_datasource_measures (ds : TableauDatasource) (h : ¬ ds.tables = []) :
    tablesMeasures (process_datasource ds).1 = ds.calculated_fields.countP truthyCalc := by
  rcases ht : ds.tables with _ | ⟨t, ts⟩
  · exact absurd ht h
  · simp [process_datasource, ht, tablesMeasures, convert_table_measures,
      tablesMeasures_map_convert, length_filterMap_convert]

/-- Summed over all datasources, each with at least one table, the measure
total is the sum of the truthy calculated-field counts. -/
theorem datasetTables_measures (dss : List TableauDatasource)
    (h : ∀ ds ∈ dss, ¬ ds.tables = []) :
    tablesMeasures (datasetTables dss)
      = (dss.map (fun ds => ds.calculated_fields.countP truthyCalc)).sum := by
  induction dss with
  | nil => rfl
  | cons ds rest ih =>
    rw [datasetTables, tablesMeasures_append,
      process_datasource_measures ds (h ds (by simp)),
      ih (fun d hd => h d (by simp [hd]))]
    simp

/-- If every datasource has a table but no canonical tables were produced,
there were no datasources at all. -/
theorem datasetTables_nil_of_all_tables (dss : List TableauDatasource)
    (h : ∀ ds ∈ dss, ¬ ds.tables = []) (he : datasetTables dss = []) : dss = [] := by
  rcases dss with _ | ⟨ds, rest⟩
  · rfl
  · rw [datasetTables] at he
    rcases List.append_eq_nil.mp he with ⟨h1, _⟩
    rcases ht : ds.tables with _ | ⟨t, ts⟩
    · exact absurd ht (h ds (by simp))
    · rw [process_datasource, ht] at h1
      simp at h1

/-- Claim C2 counterexample: a workbook whose only datasource has one
calculated field with a non-null formula but no tables yields a report with
zero measures across all tables, not one: the engine drops measures of
tableless datasources and the placeholder table receives none. -/
theorem measure_count_drops_without_tables :
    ¬ (measuresTotal (transform identityIdGen wbNoTables).dataset
        = calcFieldsWithFormula wbNoTables) := by
  decide

/-- Claim C2 as amended: for every workbook in which every datasource has at
least one table, the number of CanonicalMeasures summed across all tables of
the resulting dataset equals the number of source calculated fields whose
formula is non-null and non-empty. -/
theorem measure_count_equals_nonempty_formulas_with_tables (g : IdGen)
    (wb : TableauWorkbook) (h : ∀ ds ∈ wb.datasources, ¬ ds.tables = []) :
    measuresTotal (transform g wb).dataset = calcFieldsWithNonEmptyFormula wb := by
  have hd : (transform g wb).dataset = create_dataset wb := rfl
  rw [hd]
  unfold measuresTotal create_dataset calcFieldsWithNonEmptyFormula
  by_cases hnil : datasetTables wb.datasources = []
  · have hds : wb.datasources = [] := datasetTables_nil_of_all_tables _ h hnil
    simp [hnil, hds, tablesMeasures, create_placeholder_measures]
  · simp [hnil]
    exact datasetTables_measures _ h

/-- Witness for the amended C2: a concrete workbook with one table-bearing
datasource, one calculated field with a formula and one without. -/
theorem measure_count_equals_nonempty_formulas_with_tables_witness :
    measuresTotal (transform identityIdGen wbWithTable).dataset
      = calcFieldsWithNonEmptyFormula wbWithTable ∧
    calcFieldsWithNonEmptyFormula wbWithTable = 1 :=
  ⟨measure_count_equals_nonempty_formulas_with_tables identityIdGen wbWithTable
     (by decide),
   by decide⟩

/-- Datasources without tables contribute no canonical tables. -/
theorem datasetTables_nil_of_empty (dss : List TableauDatasource)
    (h : ∀ ds ∈ dss, ds.tables = []) : datasetTables dss = [] := by
  induction dss with
  | nil => rfl
  | cons ds rest ih =>
    rw [datasetTables, process_datasource, h ds (by simp)]
    simp
    exact ih (fun d hd => h d (by simp [hd]))

/-- Claim C9: a workbook with no dashboards, no worksheets and no tables still
maps to a report with exactly one default 1280x720 page and a dataset whose
placeholder table has at least one column. -/
theorem empty_workbook_never_empty_output (g : IdGen) (wb : TableauWorkbook)
    (h1 : wb.dashboards = []) (h2 : wb.worksheets = [])
    (h3 : ∀ ds ∈ wb.datasources, ds.tables = []) :
    (transform g wb).pages.length = 1 ∧
    ((transform g wb).pages.all fun p => p.width == 1280 && p.height == 720) = true ∧
    ((transform g wb).dataset.tables.any fun t => !t.columns.isEmpty) = true := by
  have hp : (transform g wb).pages = create_pages g wb (create_dataset wb) := rfl
  have hds : (transform g wb).dataset = create_dataset wb := rfl
  have htn : datasetTables wb.datasources = [] := datasetTables_nil_of_empty _ h3
  have hpl : create_pages g wb (create_dataset wb)
      = [{ id := g.generate_page_id "Page1", name := "Page1", display_name := "Page 1",
           width := 1280, height := 720 }] := by
    simp [create_pages, h1, h2]
  have htab : (create_dataset wb).tables = [create_placeholder_table wb] := by
    simp [create_dataset, htn]
  have hcols : (create_placeholder_table wb).columns
      = [{ name := "Value", display_name := "Value", data_type := DataType.STRING }] := by
    simp [create_placeholder_table, h2, dedupAux]
  refine ⟨?_, ?_, ?_⟩
  · rw [hp, hpl]
    rfl
  · rw [hp, hpl]
    rfl
  · rw [hds, htab]
    simp [hcols]

/-- Witness for C9: the concrete empty workbook. -/
theorem empty_workbook_never_empty_output_witness :
    wbEmpty.dashboards = [] ∧ wbEmpty.worksheets = [] ∧
    (transform identityIdGen wbEmpty).pages.length = 1 ∧
    ((transform identityIdGen wbEmpty).pages.all
        fun p => p.width == 1280 && p.height == 720) = true ∧
    ((transform identityIdGen wbEmpty).dataset.tables.any
        fun t => !t.columns.isEmpty) = true := by
  refine ⟨rfl, rfl, ?_⟩
  have h := empty_workbook_never_empty_output identityIdGen wbEmpty rfl rfl (by decide)
  exact ⟨h.1, h.2.1, h.2.2⟩

end Migration
